import Mathlib

/-!
Verification of the claims-validator repository.

The repository's single source file (`src/app.py`) is a dashboard that reads
a spreadsheet of claims, builds one prompt per row, fans the prompts out to a
chat-completion API, parses each reply, and joins the parsed results back
onto the input rows.  The companion specification additionally documents a
deterministic rule-based validator (`classify` / `suggest` /
`validate_batch`); that validator is not part of `src/app.py`, so it is
modelled here from the specification text, as marked on each such
definition.

Strings are modelled as Lean `String`s (sequences of characters, which
matches Python `str` semantics for the operations used: slicing, equality,
concatenation).  The external network call is modelled by its outcome, an
oracle parameter producing either an error message or a reply body.
-/

namespace ClaimsValidator

/-! ## Embedding of `src/app.py` -/

/-- One spreadsheet row, as the column-name/value pairs of a pandas row;
`Row.index` is the list of column names. -/
structure Row where
  cells : List (String × String)
deriving DecidableEq

/-- The column names of a row (pandas `row.index`). -/
def Row.index (r : Row) : List String :=
  r.cells.map Prod.fst

/-- Pandas `row.get(col, default)`: the value stored under `col`, or
`default` when the column is absent. -/
def Row.get (r : Row) (col dflt : String) : String :=
  match r.cells.lookup col with
  | some v => v
  | none => dflt

/-- `get_column(row, options)` from `src/app.py`: the first entry of
`options` that is a column of `row`, defaulting to `options[0]`.
`none` models the `IndexError` Python raises when `options` is empty. -/
def get_column (row : Row) (options : List String) : Option String :=
  match options.find? (fun col => row.index.contains col) with
  | some col => some col
  | none => options.head?

/-- Total wrapper for `get_column` used at the call sites in
`build_prompt`, which all pass non-empty literal lists (so the default is
never reached). -/
def get_columnD (row : Row) (options : List String) : String :=
  (get_column row options).getD ""

/-- `build_prompt(row)` from `src/app.py`: the prompt string sent to the
model for one claim row. -/
def build_prompt (row : Row) : String :=
  let patient_age := row.get (get_columnD row ["Patient Age", "Age"]) "Unknown"
  let patient_gender := row.get (get_columnD row ["Gender", "Sex"]) "Unknown"
  let procedure_code := row.get (get_columnD row ["Procedure Code", "CPT"]) "Unknown"
  let diagnosis_code := row.get (get_columnD row ["Diagnosis Code", "ICD"]) "Unknown"
  let payer := row.get (get_columnD row ["Payer", "Insurance"]) "Unknown"
  let total_charges := row.get (get_columnD row ["Total Charges", "Charges"]) "Unknown"
  let location := row.get (get_columnD row ["Service Location", "Hospital", "Facility"]) "Unknown"
  let notes := row.get (get_columnD row ["Provider Notes", "Notes", "Justification"]) ""
  "\nYou are an expert in medical billing. Given the following patient claim information, predict whether this claim will be approved or denied, with a confidence score. If likely denied, explain the reason and give suggestions to increase approval likelihood.\n\nKeep your response concise:\n- Limit denial reasons to one short sentence or phrase\n- Keep suggestions under 15 words and actionable\n\n- Patient Age: " ++
    patient_age ++ "\n- Gender: " ++ patient_gender ++
    "\n- Procedure Code (CPT): " ++ procedure_code ++
    "\n- Diagnosis Code (ICD-10): " ++ diagnosis_code ++
    "\n- Payer: " ++ payer ++
    "\n- Total Charges: " ++ total_charges ++
    "\n- Location: " ++ location ++
    "\n- Provider Notes: " ++ notes ++
    "\n\nRespond in the following format:\n\nApproval Prediction: [Approved/Denied]  \nConfidence Score: [0.0 to 1.0]  \nReason for Denial (if applicable): [Concise phrase or one-sentence explanation]  \nSuggested Fix (if applicable): [One short, actionable sentence under 15 words]\n"

/-- Python `\s` on the characters relevant here (ASCII whitespace). -/
def isPySpace (c : Char) : Bool :=
  c == ' ' || c == '\t' || c == '\n' || c == '\r' || c == '\x0B' || c == '\x0C'

/-- Case-insensitive literal match at the start of `s` (the effect of
`re.IGNORECASE` on the fixed words of the patterns in `parse_response`). -/
def startsWithCI : List Char → List Char → Bool
  | [], _ => true
  | _ :: _, [] => false
  | p :: ps, c :: cs => (p.toLower == c.toLower) && startsWithCI ps cs

/-- Try the literal `lit` case-insensitively at the start of `s`; on success
return the rest of `s`. -/
def matchLitCI (lit s : List Char) : Option (List Char) :=
  if startsWithCI lit s then some (s.drop lit.length) else none

/-- `re.search`: try a position matcher at every start position of the
text; the leftmost successful position wins. -/
def searchFirst (f : List Char → Option (List Char)) : List Char → Option (List Char)
  | [] => f []
  | c :: cs =>
    match f (c :: cs) with
    | some g => some g
    | none => searchFirst f cs

/-- One position of `re.search(r"Approval Prediction:\s*(Approved|Denied)", text, re.IGNORECASE)`:
the literal, then the (greedy) whitespace, then the alternation; returns the
captured group, i.e. the characters actually matched by `(Approved|Denied)`. -/
def approvalAt (s : List Char) : Option (List Char) :=
  match matchLitCI "Approval Prediction:".toList s with
  | none => none
  | some rest =>
    let r := rest.dropWhile isPySpace
    if startsWithCI "Approved".toList r then some (r.take 8)
    else if startsWithCI "Denied".toList r then some (r.take 6)
    else none

/-- One position of `re.search(r"Confidence Score:\s*([0-9.]+)", text, re.IGNORECASE)`:
returns the captured digits-and-dots group. -/
def confidenceAt (s : List Char) : Option (List Char) :=
  match matchLitCI "Confidence Score:".toList s with
  | none => none
  | some rest =>
    let r := rest.dropWhile isPySpace
    let g := r.takeWhile (fun c => c.isDigit || c == '.')
    if g.isEmpty then none else some g

/-- Scan to the first `:` on the current line (the lazy `.*?:` of the
reason/suggestion patterns; `.` does not cross a newline); on success
return what follows the colon. -/
def findColonSameLine : List Char → Option (List Char)
  | [] => none
  | c :: cs =>
    if c == ':' then some cs
    else if c == '\n' then none
    else findColonSameLine cs

/-- One position of `re.search(r"<lit>.*?:\s*(.*)", text, re.IGNORECASE)`,
used with `lit = "Reason for Denial"` and `lit = "Suggested Fix"`: the
literal, a lazy scan to a colon on the same line, greedy whitespace (which
may cross newlines), then the rest of that line as the captured group. -/
def afterColonAt (lit : List Char) (s : List Char) : Option (List Char) :=
  match matchLitCI lit s with
  | none => none
  | some rest =>
    match findColonSameLine rest with
    | none => none
    | some afterColon =>
      let r := afterColon.dropWhile isPySpace
      some (r.takeWhile (fun c => c != '\n'))

/-- Python `str.capitalize()`: first character upper-cased, the rest
lower-cased. -/
def pyCapitalize : List Char → String
  | [] => ""
  | c :: cs => (c.toUpper :: cs.map Char.toLower).asString

/-- Python `str.strip()`: whitespace removed from both ends. -/
def pyStrip (l : List Char) : List Char :=
  ((l.dropWhile isPySpace).reverse.dropWhile isPySpace).reverse

/-- The numeric value of a digit string. -/
def digitsToNat (l : List Char) : Nat :=
  l.foldl (fun n c => 10 * n + (c.toNat - 48)) 0

/-- Python `float(g)` on a string `g` drawn from `[0-9.]+`: defined exactly
when `g` has at most one dot and at least one digit; the value is the exact
decimal (rationals stand in for the literal's value; none of the checked
claims depends on IEEE rounding of that value). -/
def pyFloat (g : List Char) : Option ℚ :=
  if g.count '.' ≤ 1 ∧ g.any Char.isDigit then
    let intPart := g.takeWhile (fun c => c != '.')
    let fracPart := (g.dropWhile (fun c => c != '.')).drop 1
    some ((digitsToNat intPart : ℚ) + (digitsToNat fracPart : ℚ) / 10 ^ fracPart.length)
  else none

/-- The value stored under `"Confidence"`: a parsed score, Python `None`,
or the empty string that the error record uses. -/
inductive Conf where
  | score (q : ℚ)
  | nothing
  | emptyStr
deriving DecidableEq

/-- The result dictionary produced by `parse_response` and
`async_call_openai`. -/
structure ResultRecord where
  predictedStatus : String
  confidence : Conf
  likelyDenialReason : String
  suggestedFix : String
deriving DecidableEq

/-- Line 86 of `src/app.py`:
`conf_score = float(confidence.group(1)) if confidence else None`, with the
possible `ValueError` made explicit as `Except.error`. -/
def confScoreOf : Option (List Char) → Except String (Option ℚ)
  | some g =>
    match pyFloat g with
    | some q => .ok (some q)
    | none => .error ("could not convert string to float: " ++ g.asString)
  | none => .ok none

/-- `parse_response(text)` from `src/app.py`.  `Except.error` models the
`ValueError` that `float(...)` raises when the captured confidence group is
not a valid number (e.g. `".."`); every other path returns the dictionary. -/
def parse_response (text : String) : Except String ResultRecord :=
  let s := text.toList
  let approved := searchFirst approvalAt s
  let confidence := searchFirst confidenceAt s
  let reason := searchFirst (afterColonAt "Reason for Denial".toList) s
  let suggestion := searchFirst (afterColonAt "Suggested Fix".toList) s
  let status : String :=
    match approved with
    | some g => pyCapitalize g
    | none => "Unknown"
  match confScoreOf confidence with
  | .error e => .error e
  | .ok conf_score =>
    let denial_reason := if status == "Denied" then
        (match reason with | some g => (pyStrip g).asString | none => "") else ""
    let suggestion_text := if status == "Denied" then
        (match suggestion with | some g => (pyStrip g).asString | none => "") else ""
    let clear := status == "Approved" &&
      (match conf_score with
       | some q => decide (q ≠ 0) && decide ((9 : ℚ) / 10 ≤ q)
       | none => false)
    .ok { predictedStatus := status
          confidence := match conf_score with | some q => Conf.score q | none => Conf.nothing
          likelyDenialReason := if clear then "" else denial_reason
          suggestedFix := if clear then "" else suggestion_text }

/-- Reference variant of `parse_response` without the clearing branch of
lines 91–93 of `src/app.py` (`if status == "Approved" and conf_score and
conf_score >= 0.90: ...`), used to state that the branch never changes the
output. -/
def parse_response_noClear (text : String) : Except String ResultRecord :=
  let s := text.toList
  let approved := searchFirst approvalAt s
  let confidence := searchFirst confidenceAt s
  let reason := searchFirst (afterColonAt "Reason for Denial".toList) s
  let suggestion := searchFirst (afterColonAt "Suggested Fix".toList) s
  let status : String :=
    match approved with
    | some g => pyCapitalize g
    | none => "Unknown"
  match confScoreOf confidence with
  | .error e => .error e
  | .ok conf_score =>
    let denial_reason := if status == "Denied" then
        (match reason with | some g => (pyStrip g).asString | none => "") else ""
    let suggestion_text := if status == "Denied" then
        (match suggestion with | some g => (pyStrip g).asString | none => "") else ""
    .ok { predictedStatus := status
          confidence := match conf_score with | some q => Conf.score q | none => Conf.nothing
          likelyDenialReason := denial_reason
          suggestedFix := suggestion_text }

/-- The `except` branch of `async_call_openai`: the error dictionary built
from the exception message `str(e)`. -/
def errorRecord (e : String) : ResultRecord :=
  { predictedStatus := "Error"
    confidence := Conf.emptyStr
    likelyDenialReason := e
    suggestedFix := "Check API or prompt" }

/-- `async_call_openai(prompt, api_key)` from `src/app.py`.  The network
request plus JSON decoding is outside the program and is modelled by its
outcome: `.ok reply` is the extracted message content, `.error e` the
message of whatever exception the request or the decoding raised.  Both
that exception and a `ValueError` inside `parse_response` happen inside the
`try`, so the `except` turns each into `errorRecord`. -/
def async_call_openai (outcome : Except String String) : ResultRecord :=
  match outcome with
  | .ok reply =>
    match parse_response reply with
    | .ok r => r
    | .error e => errorRecord e
  | .error e => errorRecord e

/-- `analyze_claims(df, api_key)` from `src/app.py`: one prompt per row, a
fan-out of independent calls whose results `asyncio.gather` returns in task
order, then a column-wise `pd.concat` that pairs row `i` with result `i`.
`net` is the per-prompt outcome of the network request (see
`async_call_openai`). -/
def analyze_claims (df : List Row) (net : String → Except String String) :
    List (Row × ResultRecord) :=
  let prompts := df.map build_prompt
  let results := prompts.map (fun p => async_call_openai (net p))
  df.zip results

/-! ## The rule-based validator, modelled from the specification

`classify`, `suggest` and `validate_batch` (spec §4.1) belong to a variant
of the dashboard that is not under `src/`; each definition below is built
from the specification's words, as its doc comment records. -/

/-- Modelled from the spec: one Claim row (§3).  `provider_note` and
`denial_status` are opaque pass-through strings the validator never reads,
so only the fields the validator and the summary read are kept. -/
structure Claim where
  claim_id : String
  diagnosis_codes : String
  procedure_codes : String
  payer : String
deriving DecidableEq

/-- Modelled from the spec: the CompatibilityTable (§3), a fixed mapping
from 3-character diagnosis prefix to the single expected procedure code,
represented as an association list queried with `List.lookup`. -/
abbrev CompatibilityTable := List (String × String)

/-- Python `s[:3]`: the first three characters of `s` (the whole string
when it is shorter). -/
def take3 (s : String) : String :=
  (s.toList.take 3).asString

/-- Modelled from the spec: `classify(claim, table) -> flagged` (§4.1).
The first 3 characters of `diagnosis_codes` form the category prefix; a
known prefix flags exactly when `procedure_codes` differs (case-sensitive,
no normalization) from the mapped value; an unknown prefix always flags. -/
def classify (c : Claim) (table : CompatibilityTable) : Bool :=
  match table.lookup (take3 c.diagnosis_codes) with
  | some expected => c.procedure_codes != expected
  | none => true

/-- Modelled from the spec: `suggest(claim, flagged) -> suggestion` (§4.1):
empty when not flagged, otherwise the fixed template interpolating the
claim's procedure and diagnosis codes. -/
def suggest (c : Claim) (flagged : Bool) : String :=
  if flagged then
    "Check if CPT " ++ c.procedure_codes ++ " matches diagnosis " ++
      c.diagnosis_codes ++
      ". Consider adding a supporting diagnosis or correcting the code."
  else ""

/-- Rounding to one decimal place, half up (spec §4.1 allows either
round-half-to-even or round-half-up and asks the implementation to document
its choice; this model documents round-half-up). -/
def round1 (q : ℚ) : ℚ :=
  ((round (q * 10) : ℤ) : ℚ) / 10

/-- Modelled from the spec: the batch-level summary of `validate_batch`
(§4.1): total rows, flagged count, unflagged count (total minus flagged),
percent flagged rounded to one decimal place.  `percentFlagged` is only
specified for non-empty batches (`ℚ` division by zero makes it `0` on the
empty batch). -/
structure Summary where
  total : Nat
  flagged : Nat
  unflagged : Nat
  percentFlagged : ℚ
deriving DecidableEq

/-- Modelled from the spec: the flagged rows of a batch. -/
def flaggedRows (rows : List Claim) (table : CompatibilityTable) : List Claim :=
  rows.filter (fun c => classify c table)

/-- Modelled from the spec: the summary counts of `validate_batch` (§4.1). -/
def summaryOf (rows : List Claim) (table : CompatibilityTable) : Summary :=
  let total := rows.length
  let flagged := (flaggedRows rows table).length
  { total := total
    flagged := flagged
    unflagged := total - flagged
    percentFlagged := round1 ((flagged : ℚ) / (total : ℚ) * 100) }

/-- Modelled from the spec: the per-payer flagged-count breakdown (§4.1):
every distinct payer of the input appears exactly once, with the number of
its flagged claims (0 when it has none). -/
def payerBreakdown (rows : List Claim) (table : CompatibilityTable) :
    List (String × Nat) :=
  ((rows.map Claim.payer).dedup).map
    (fun p => (p, ((flaggedRows rows table).filter (fun c => c.payer == p)).length))

/-- Modelled from the spec: `validate_batch(claims, table)` (§4.1): each
row augmented with its `flagged`/`suggestion` pair in input order, plus the
summary and the per-payer breakdown. -/
def validate_batch (rows : List Claim) (table : CompatibilityTable) :
    List (Claim × Bool × String) × Summary × List (String × Nat) :=
  (rows.map (fun c => (c, classify c table, suggest c (classify c table))),
   summaryOf rows table,
   payerBreakdown rows table)

/-! ## Theorems -/

/-- C1: `classify` returns `true` exactly when the 3-character diagnosis
prefix is absent from the table, or present but mapped to a value different
from `procedure_codes`; in particular an absent prefix always flags, and a
present prefix whose mapped value equals the procedure code never does. -/
theorem C1_classify_iff (c : Claim) (table : CompatibilityTable) :
    (classify c table = true ↔
      table.lookup (take3 c.diagnosis_codes) = none ∨
        ∃ v, table.lookup (take3 c.diagnosis_codes) = some v ∧ c.procedure_codes ≠ v) ∧
    (table.lookup (take3 c.diagnosis_codes) = none → classify c table = true) ∧
    (∀ v, table.lookup (take3 c.diagnosis_codes) = some v → c.procedure_codes = v →
      classify c table = false) := by
  unfold classify
  cases h : table.lookup (take3 c.diagnosis_codes) with
  | none => simp
  | some v => simp [bne_iff_ne]

/-- C1 witness: a concrete absent-prefix claim is flagged and a concrete
exact-match claim is not. -/
theorem C1_classify_iff_witness :
    classify ⟨"c1", "Z00.0", "99213", "A"⟩ [("M16", "27447")] = true ∧
    classify ⟨"c2", "M16.1", "27447", "A"⟩ [("M16", "27447")] = false := by
  constructor
  · exact (C1_classify_iff ⟨"c1", "Z00.0", "99213", "A"⟩ [("M16", "27447")]).2.1 (by decide)
  · exact (C1_classify_iff ⟨"c2", "M16.1", "27447", "A"⟩ [("M16", "27447")]).2.2
      "27447" (by decide) rfl

/-- C3: `suggest` is empty iff not flagged; when flagged it is exactly the
fixed template with the claim's codes interpolated; and it is deterministic
(two calls on the same inputs agree). -/
theorem C3_suggest_template (c : Claim) (flagged : Bool) :
    (suggest c flagged = "" ↔ flagged = false) ∧
    (flagged = true →
      suggest c flagged =
        "Check if CPT " ++ c.procedure_codes ++ " matches diagnosis " ++
          c.diagnosis_codes ++
          ". Consider adding a supporting diagnosis or correcting the code.") ∧
    suggest c flagged = suggest c flagged := by
  cases flagged with
  | false =>
    refine ⟨by simp [suggest], ?_, rfl⟩
    intro h
    exact absurd h (by decide)
  | true =>
    refine ⟨?_, fun _ => by simp [suggest], rfl⟩
    simp only [suggest, if_true]
    constructor
    · intro h
      have hl := congrArg String.length h
      simp only [String.length_append] at hl
      have h13 : ("Check if CPT ").length = 13 := rfl
      have h0 : ("" : String).length = 0 := rfl
      omega
    · intro h
      exact absurd h (by decide)

/-- C3 witness: the flagged case of spec scenario 2, via the theorem. -/
theorem C3_suggest_template_witness :
    suggest ⟨"c1", "M16.1", "11111", "A"⟩ true =
      "Check if CPT " ++ "11111" ++ " matches diagnosis " ++ "M16.1" ++
        ". Consider adding a supporting diagnosis or correcting the code." :=
  (C3_suggest_template ⟨"c1", "M16.1", "11111", "A"⟩ true).2.1 rfl

/-- C7: `classify` is total on strings (it always yields one of the two
booleans) and is a pure function of exactly its two semantic inputs: claims
agreeing on `diagnosis_codes` and `procedure_codes` classify alike under
any table, whatever their other fields. -/
theorem C7_classify_pure (c₁ c₂ : Claim) (table : CompatibilityTable)
    (hd : c₁.diagnosis_codes = c₂.diagnosis_codes)
    (hp : c₁.procedure_codes = c₂.procedure_codes) :
    classify c₁ table = classify c₂ table ∧
    (classify c₁ table = true ∨ classify c₁ table = false) := by
  constructor
  · unfold classify
    rw [hd, hp]
  · cases classify c₁ table
    · exact Or.inr rfl
    · exact Or.inl rfl

/-- C7 witness: two claims differing only in id and payer classify alike. -/
theorem C7_classify_pure_witness :
    classify ⟨"a", "M16.1", "27447", "P1"⟩ [("M16", "27447")] =
      classify ⟨"b", "M16.1", "27447", "P2"⟩ [("M16", "27447")] ∧
    (classify ⟨"a", "M16.1", "27447", "P1"⟩ [("M16", "27447")] = true ∨
      classify ⟨"a", "M16.1", "27447", "P1"⟩ [("M16", "27447")] = false) :=
  C7_classify_pure ⟨"a", "M16.1", "27447", "P1"⟩ ⟨"b", "M16.1", "27447", "P2"⟩
    [("M16", "27447")] rfl rfl

/-- C8: a diagnosis string shorter than 3 characters is its own prefix; in
a table whose keys are all 3-character strings it matches no key, and the
claim is flagged. -/
theorem C8_short_diagnosis (c : Claim) (table : CompatibilityTable)
    (hshort : c.diagnosis_codes.length < 3)
    (hkeys : ∀ kv ∈ table, (Prod.fst kv).length = 3) :
    take3 c.diagnosis_codes = c.diagnosis_codes ∧
    table.lookup (take3 c.diagnosis_codes) = none ∧
    classify c table = true := by
  have hlist : c.diagnosis_codes.toList.length = c.diagnosis_codes.length := rfl
  have h1 : take3 c.diagnosis_codes = c.diagnosis_codes := by
    simp only [take3]
    rw [List.take_of_length_le (by omega)]
    cases c.diagnosis_codes with
    | mk data => rfl
  have h2 : table.lookup (take3 c.diagnosis_codes) = none := by
    induction table with
    | nil => rfl
    | cons kv rest ih =>
      obtain ⟨k, v⟩ := kv
      have hk3 : k.length = 3 := hkeys (k, v) (List.mem_cons_self _ _)
      have hne : (take3 c.diagnosis_codes == k) = false := by
        rw [h1]
        apply beq_eq_false_iff_ne.mpr
        intro hEq
        rw [← hEq] at hk3
        omega
      simp only [List.lookup, hne]
      exact ih (fun kv hm => hkeys kv (List.mem_cons_of_mem _ hm))
  refine ⟨h1, h2, ?_⟩
  unfold classify
  rw [h2]

/-- C8 witness: a 2-character diagnosis code against a 3-character-keyed
table. -/
theorem C8_short_diagnosis_witness :
    take3 "M1" = "M1" ∧
    List.lookup (take3 "M1") [("M16", "27447")] = none ∧
    classify ⟨"x", "M1", "27447", "A"⟩ [("M16", "27447")] = true :=
  C8_short_diagnosis ⟨"x", "M1", "27447", "A"⟩ [("M16", "27447")]
    (by decide) (by decide)

/-- C4: the per-payer breakdown lists each payer at most once, its entries
are exactly the distinct payers of the input, and a payer none of whose
claims is flagged gets count 0. -/
theorem C4_payer_breakdown (rows : List Claim) (table : CompatibilityTable) :
    ((payerBreakdown rows table).map Prod.fst).Nodup ∧
    (∀ p, p ∈ (payerBreakdown rows table).map Prod.fst ↔ p ∈ rows.map Claim.payer) ∧
    (∀ p n, (p, n) ∈ payerBreakdown rows table →
      (∀ c ∈ rows, c.payer = p → classify c table = false) → n = 0) := by
  have hfst : (payerBreakdown rows table).map Prod.fst = (rows.map Claim.payer).dedup := by
    simp only [payerBreakdown, List.map_map]
    exact List.map_id _
  refine ⟨?_, ?_, ?_⟩
  · rw [hfst]
    exact List.nodup_dedup _
  · intro p
    rw [hfst]
    exact List.mem_dedup
  · intro p n hmem hnone
    simp only [payerBreakdown, List.mem_map] at hmem
    obtain ⟨p', _, heq⟩ := hmem
    obtain ⟨h1, h2⟩ := Prod.mk.injEq .. ▸ heq
    subst h1
    rw [← h2, List.length_eq_zero, List.filter_eq_nil_iff]
    intro c hc hbeq
    have hcr : c ∈ rows ∧ classify c table = true := by
      simpa [flaggedRows, List.mem_filter] using hc
    rw [beq_iff_eq] at hbeq
    have := hnone c hcr.1 hbeq
    rw [this] at hcr
    exact absurd hcr.2 (by decide)

/-- C4 witness: spec scenario 4 (payers A, A, B, C; flags true, false,
true, false): payer C appears with count 0. -/
theorem C4_payer_breakdown_witness :
    (("C" : String), (0 : Nat)) ∈
      payerBreakdown
        [⟨"1", "Z00.0", "99213", "A"⟩, ⟨"2", "M16.1", "27447", "A"⟩,
          ⟨"3", "Z99.9", "11111", "B"⟩, ⟨"4", "M16.1", "27447", "C"⟩]
        [("M16", "27447")] ∧
    (0 : Nat) = 0 := by
  refine ⟨by decide, ?_⟩
  exact (C4_payer_breakdown
    [⟨"1", "Z00.0", "99213", "A"⟩, ⟨"2", "M16.1", "27447", "A"⟩,
      ⟨"3", "Z99.9", "11111", "B"⟩, ⟨"4", "M16.1", "27447", "C"⟩]
    [("M16", "27447")]).2.2 "C" 0 (by decide) (by decide)

/-- C5: for a non-empty batch the summary percentage is
`round(flagged / total * 100, 1)` (one decimal place), the unflagged count
is total minus flagged, and a 3-row batch with exactly one flagged row
reports 33.3. -/
theorem C5_summary_percent (rows : List Claim) (table : CompatibilityTable)
    (_hne : rows ≠ []) :
    (summaryOf rows table).percentFlagged =
      round1 (((flaggedRows rows table).length : ℚ) / (rows.length : ℚ) * 100) ∧
    (summaryOf rows table).unflagged + (summaryOf rows table).flagged =
      (summaryOf rows table).total ∧
    (rows.length = 3 → (flaggedRows rows table).length = 1 →
      (summaryOf rows table).percentFlagged = 333 / 10) := by
  refine ⟨rfl, ?_, ?_⟩
  · have hle : (flaggedRows rows table).length ≤ rows.length :=
      List.length_filter_le _ _
    simp only [summaryOf]
    omega
  · intro h3 h1
    simp only [summaryOf, h3, h1]
    norm_num [round1, round_eq]

/-- C5 witness: a concrete 3-row batch with one flagged row reports 33.3
(and the counts add up). -/
theorem C5_summary_percent_witness :
    (summaryOf
      [⟨"1", "M16.1", "27447", "A"⟩, ⟨"2", "M16.1", "27447", "B"⟩,
        ⟨"3", "Z00.0", "99213", "C"⟩]
      [("M16", "27447")]).percentFlagged = 333 / 10 :=
  (C5_summary_percent
    [⟨"1", "M16.1", "27447", "A"⟩, ⟨"2", "M16.1", "27447", "B"⟩,
      ⟨"3", "Z00.0", "99213", "C"⟩]
    [("M16", "27447")] (by decide)).2.2 (by decide) (by decide)

/-- C2: `analyze_claims` pairs each input row, in order, with the analysis
of that row's own prompt: it equals a per-row map, so the output length is
the input length and entry `i` corresponds to input row `i` (no
reordering, no deduplication). -/
theorem C2_analyze_claims_rows (df : List Row) (net : String → Except String String) :
    analyze_claims df net =
      df.map (fun r => (r, async_call_openai (net (build_prompt r)))) ∧
    (analyze_claims df net).length = df.length ∧
    (∀ i : Nat, (analyze_claims df net)[i]? =
      (df[i]?).map (fun r => (r, async_call_openai (net (build_prompt r))))) := by
  have key : analyze_claims df net =
      df.map (fun r => (r, async_call_openai (net (build_prompt r)))) := by
    induction df with
    | nil => rfl
    | cons r t ih =>
      show (r :: t).zip (((r :: t).map build_prompt).map
          fun p => async_call_openai (net p)) = _
      rw [List.map_cons, List.map_cons, List.zip_cons_cons]
      rw [show t.zip ((t.map build_prompt).map fun p => async_call_openai (net p)) =
        analyze_claims t net from rfl]
      rw [ih, List.map_cons]
  refine ⟨key, ?_, ?_⟩
  · rw [key, List.length_map]
  · intro i
    rw [key, List.getElem?_map]

/-- C10: on a non-empty option list `get_column` cannot fail and returns an
element of `options`: the first option present among the row's columns, or
`options[0]` when none is present. -/
theorem C10_get_column (row : Row) (options : List String)
    (h : options ≠ []) :
    ∃ col, get_column row options = some col ∧ col ∈ options ∧
      (options.find? (fun o => row.index.contains o) = some col ∨
        (options.find? (fun o => row.index.contains o) = none ∧
          options.head? = some col)) := by
  unfold get_column
  cases hf : options.find? (fun o => row.index.contains o) with
  | some col =>
    exact ⟨col, rfl, List.mem_of_find?_eq_some hf, Or.inl rfl⟩
  | none =>
    cases options with
    | nil => exact absurd rfl h
    | cons a t =>
      exact ⟨a, rfl, List.mem_cons_self a t, Or.inr ⟨rfl, rfl⟩⟩

/-- C10 witness: a row carrying only an `Age` column, with the fallback
list of `build_prompt`. -/
theorem C10_get_column_witness :
    ∃ col, get_column ⟨[("Age", "47")]⟩ ["Patient Age", "Age"] = some col ∧
      col ∈ ["Patient Age", "Age"] ∧
      (["Patient Age", "Age"].find?
          (fun o => (Row.index ⟨[("Age", "47")]⟩).contains o) = some col ∨
        (["Patient Age", "Age"].find?
            (fun o => (Row.index ⟨[("Age", "47")]⟩).contains o) = none ∧
          ["Patient Age", "Age"].head? = some col)) :=
  C10_get_column ⟨[("Age", "47")]⟩ ["Patient Age", "Age"] (by decide)

/-- C6: `async_call_openai` never propagates a failure: an exception from
the request or the decoding, or a parse failure inside the `try`, yields
the `"Error"` record carrying the exception message as the likely denial
reason; otherwise the parsed record is returned unchanged. -/
theorem C6_async_call_total (outcome : Except String String) :
    (∀ e, outcome = .error e →
      async_call_openai outcome = errorRecord e ∧
      (async_call_openai outcome).predictedStatus = "Error" ∧
      (async_call_openai outcome).likelyDenialReason = e) ∧
    (∀ reply e, outcome = .ok reply → parse_response reply = .error e →
      async_call_openai outcome = errorRecord e ∧
      (async_call_openai outcome).predictedStatus = "Error" ∧
      (async_call_openai outcome).likelyDenialReason = e) ∧
    (∀ reply r, outcome = .ok reply → parse_response reply = .ok r →
      async_call_openai outcome = r) := by
  refine ⟨?_, ?_, ?_⟩
  · rintro e rfl
    exact ⟨rfl, rfl, rfl⟩
  · rintro reply e rfl hp
    simp [async_call_openai, hp, errorRecord]
  · rintro reply r rfl hp
    simp [async_call_openai, hp]

/-- C6 witness: a failed request with message `"boom"` produces the error
record. -/
theorem C6_async_call_total_witness :
    async_call_openai (.error "boom") = errorRecord "boom" ∧
    (async_call_openai (.error "boom")).predictedStatus = "Error" ∧
    (async_call_openai (.error "boom")).likelyDenialReason = "boom" :=
  (C6_async_call_total (.error "boom")).1 "boom" rfl

/-- Helper for C9: a successful `re.search` over the whole text comes from
a successful match at some start position. -/
theorem searchFirst_some {f : List Char → Option (List Char)}
    {s g : List Char} (h : searchFirst f s = some g) :
    ∃ t, f t = some g := by
  induction s with
  | nil => exact ⟨[], h⟩
  | cons c cs ih =>
    simp only [searchFirst] at h
    cases hf : f (c :: cs) with
    | some g2 =>
      rw [hf] at h
      exact ⟨c :: cs, hf.trans h⟩
    | none =>
      rw [hf] at h
      exact ih h

/-- Helper for C9: a case-insensitive literal match determines the matched
characters up to letter case. -/
theorem startsWithCI_map (p : List Char) :
    ∀ s : List Char, startsWithCI p s = true →
      (s.take p.length).map Char.toLower = p.map Char.toLower := by
  induction p with
  | nil =>
    intro s _
    simp
  | cons a ps ih =>
    intro s h
    cases s with
    | nil => exact absurd h (by simp [startsWithCI])
    | cons c cs =>
      simp only [startsWithCI, Bool.and_eq_true, beq_iff_eq] at h
      simp only [List.length_cons, List.take_succ_cons, List.map_cons]
      rw [ih cs h.2, h.1]

/-- Helper for C9: a character whose lower-case form is a basic latin
lower-case letter `t` upper-cases to the corresponding capital. -/
theorem toUpper_of_toLower (c t : Char) (ht : 97 ≤ t.toNat ∧ t.toNat ≤ 122)
    (h : c.toLower = t) : c.toUpper = Char.ofNat (t.toNat - 32) := by
  simp only [Char.toLower] at h
  split at h
  · rename_i hc
    have h2 : (Char.ofNat (c.toNat + 32)).toNat = t.toNat := by rw [h]
    have hv : (c.toNat + 32).isValidChar := by
      constructor
      omega
    rw [Char.ofNat, dif_pos hv] at h2
    have h3 : c.toNat + 32 = t.toNat := h2
    have hup : c.toUpper = c := by
      simp only [Char.toUpper]
      rw [if_neg (by omega)]
    rw [hup]
    have hv2 : (t.toNat - 32).isValidChar := by
      constructor
      omega
    apply Char.ext
    apply UInt32.toNat.inj
    show c.toNat = (Char.ofNat (t.toNat - 32)).toNat
    rw [Char.ofNat, dif_pos hv2]
    show c.toNat = t.toNat - 32
    omega
  · subst h
    simp only [Char.toUpper]
    rw [if_pos (by omega)]

/-- Helper for C9: any group matched case-insensitively against
`"Approved"` capitalizes to `"Approved"`. -/
theorem pyCapitalize_approved (g : List Char)
    (h : g.map Char.toLower = "approved".toList) : pyCapitalize g = "Approved" := by
  cases g with
  | nil => exact absurd h (by decide)
  | cons c cs =>
    rw [show ("approved".toList : List Char) = 'a' :: "pproved".toList from rfl] at h
    simp only [List.map_cons, List.cons.injEq] at h
    simp only [pyCapitalize]
    rw [h.2, toUpper_of_toLower c 'a' (by decide) h.1]
    decide

/-- Helper for C9: any group matched case-insensitively against `"Denied"`
capitalizes to `"Denied"`. -/
theorem pyCapitalize_denied (g : List Char)
    (h : g.map Char.toLower = "denied".toList) : pyCapitalize g = "Denied" := by
  cases g with
  | nil => exact absurd h (by decide)
  | cons c cs =>
    rw [show ("denied".toList : List Char) = 'd' :: "enied".toList from rfl] at h
    simp only [List.map_cons, List.cons.injEq] at h
    simp only [pyCapitalize]
    rw [h.2, toUpper_of_toLower c 'd' (by decide) h.1]
    decide

/-- Helper for C9: the status group captured by the approval pattern
capitalizes to `"Approved"` or `"Denied"`. -/
theorem approvalAt_group {s g : List Char} (h : approvalAt s = some g) :
    pyCapitalize g = "Approved" ∨ pyCapitalize g = "Denied" := by
  unfold approvalAt at h
  cases hm : matchLitCI "Approval Prediction:".toList s with
  | none =>
    rw [hm] at h
    exact absurd h (by simp)
  | some rest =>
    rw [hm] at h
    simp only at h
    split at h
    · rename_i happ
      left
      apply pyCapitalize_approved
      have := startsWithCI_map "Approved".toList (rest.dropWhile isPySpace) happ
      rw [show ("Approved".toList : List Char).length = 8 from rfl] at this
      rw [show ("Approved".toList : List Char).map Char.toLower = "approved".toList
        from rfl] at this
      injection h with h
      rw [h] at this
      exact this
    · split at h
      · rename_i hden
        right
        apply pyCapitalize_denied
        have := startsWithCI_map "Denied".toList (rest.dropWhile isPySpace) hden
        rw [show ("Denied".toList : List Char).length = 6 from rfl] at this
        rw [show ("Denied".toList : List Char).map Char.toLower = "denied".toList
          from rfl] at this
        injection h with h
        rw [h] at this
        exact this
      · exact absurd h (by simp)

/-- C9: whenever `parse_response` returns, the status is one of
`"Approved"`, `"Denied"`, `"Unknown"`; a status other than `"Denied"` comes
with empty denial reason and empty suggested fix; and the clearing branch
for confident approvals never changes the output (`parse_response` agrees
with the branch-free variant). -/
theorem C9_parse_response_invariants (text : String) :
    (∀ r, parse_response text = .ok r →
      (r.predictedStatus = "Approved" ∨ r.predictedStatus = "Denied" ∨
        r.predictedStatus = "Unknown") ∧
      (r.predictedStatus ≠ "Denied" →
        r.likelyDenialReason = "" ∧ r.suggestedFix = "")) ∧
    parse_response_noClear text = parse_response text := by
  have hst : ∀ g, searchFirst approvalAt text.toList = some g →
      pyCapitalize g = "Approved" ∨ pyCapitalize g = "Denied" := by
    intro g hg
    obtain ⟨t, ht⟩ := searchFirst_some hg
    exact approvalAt_group ht
  simp only [parse_response, parse_response_noClear]
  cases hconf : confScoreOf (searchFirst confidenceAt text.toList) with
  | error e =>
    constructor
    · intro r hr
      exact absurd hr (by simp)
    · rfl
  | ok conf_score =>
    cases happr : searchFirst approvalAt text.toList with
    | none =>
      dsimp only
      constructor
      · intro r hr
        injection hr with hr
        subst hr
        refine ⟨Or.inr (Or.inr rfl), fun _ => ?_⟩
        constructor <;> simp
      · simp
    | some g =>
      dsimp only
      cases hst g happr with
      | inl hA =>
        rw [hA]
        constructor
        · intro r hr
          injection hr with hr
          subst hr
          refine ⟨Or.inl rfl, fun _ => ?_⟩
          constructor <;> simp
        · simp
      | inr hD =>
        rw [hD]
        constructor
        · intro r hr
          injection hr with hr
          subst hr
          refine ⟨Or.inr (Or.inl rfl), fun hne => ?_⟩
          exact absurd rfl hne
        · simp

/-- C9 witness: a reply carrying only an approval line parses to the
`"Approved"` status with empty reason and fix. -/
theorem C9_parse_response_invariants_witness :
    ((ResultRecord.mk "Approved" Conf.nothing "" "").predictedStatus = "Approved" ∨
      (ResultRecord.mk "Approved" Conf.nothing "" "").predictedStatus = "Denied" ∨
      (ResultRecord.mk "Approved" Conf.nothing "" "").predictedStatus = "Unknown") ∧
    ((ResultRecord.mk "Approved" Conf.nothing "" "").likelyDenialReason = "" ∧
      (ResultRecord.mk "Approved" Conf.nothing "" "").suggestedFix = "") := by
  have h := (C9_parse_response_invariants "Approval Prediction: approved").1
    (ResultRecord.mk "Approved" Conf.nothing "" "") (by rfl)
  exact ⟨h.1, h.2 (by decide)⟩

end ClaimsValidator
